import Mathlib

/-!
Verification development for the DailyLogger repository (Tauri v2 app:
Vue 3 frontend + Rust backend). The Vue components under `src/` are
embedded directly; the Rust backend (`src-tauri`, not part of the
frontend sources) is modelled from the specification where a claim
depends on it.
-/

namespace DailyLogger

/-- A record row, matching the `records` table schema
(`id, timestamp, source_type, content, screenshot_path`). The frontend
also builds ad-hoc record objects with `content: null`, hence `Option`. -/
structure Record where
  id : Nat
  timestamp : String
  source_type : String
  content : Option String
  screenshot_path : Option String
deriving Repr, DecidableEq

/-- The backend commands the App component can invoke over Tauri IPC. -/
inductive Cmd where
  | start_auto_capture
  | stop_auto_capture
  | trigger_capture
  | take_screenshot
  | get_today_records
  | generate_daily_summary
  | add_quick_note
  | get_settings
  | save_settings
  | get_screenshot
deriving Repr, DecidableEq

/-! ## QuickNoteModal (`save`) -/

/-- The characters removed by JavaScript `String.prototype.trim`: the
ECMAScript WhiteSpace set (TAB, VT, FF, SP, NBSP, ZWNBSP/FEFF, and the
Unicode Space_Separator category U+1680, U+2000–U+200A, U+202F, U+205F,
U+3000) together with the LineTerminator set (LF, CR, LS, PS). -/
def jsWs (c : Char) : Bool :=
  c = ' ' || c = '\t' || c = '\n' || c = '\r' || c = '\x0b' || c = '\x0c' ||
  c = '\u00A0' || c = '\u1680' || ('\u2000' ≤ c && c ≤ '\u200A') ||
  c = '\u2028' || c = '\u2029' || c = '\u202F' || c = '\u205F' ||
  c = '\u3000' || c = '\uFEFF'

/-- Trim `jsWs` characters from both ends of a character list. -/
def trimChars (l : List Char) : List Char :=
  ((l.dropWhile jsWs).reverse.dropWhile jsWs).reverse

/-- Embedding of JavaScript `content.trim()`. -/
def jsTrim (s : String) : String :=
  ⟨trimChars s.data⟩

/-- `QuickNoteModal.save`: `if (!content.value.trim()) return;
emit('save', content.value.trim())`. The result is the list of payloads
of the `save` events emitted by one call. -/
def quickNoteSave (content : String) : List String :=
  if jsTrim content = "" then [] else [jsTrim content]

/-! ## App.vue component state and handlers

The handlers are `async` JavaScript functions whose external effects are
the Tauri `invoke` calls; each is embedded as a function from the
component state and the outcomes of those calls to the new state paired
with the ordered list of backend commands invoked. -/

/-- The reactive refs of `App.vue` that the embedded handlers touch. -/
structure AppState where
  autoCaptureEnabled : Bool
  quickNotesCount : Nat
  todayRecords : List Record
  isGenerating : Bool
  isCapturing : Bool
  summaryPath : String
  summaryError : String
  captureError : String
  showScreenshot : Bool
  selectedScreenshot : Option Record
deriving Repr, DecidableEq

/-- `loadTodayRecords`: on success stores the fetched records and the
manual-record count; the catch branch only logs, leaving state as is. -/
def loadTodayRecords (st : AppState) (result : Except String (List Record)) :
    AppState :=
  match result with
  | .ok records =>
      { st with
        todayRecords := records
        quickNotesCount :=
          (records.filter (fun r => r.source_type = "manual")).length }
  | .error _ => st

/-- `triggerCapture` in `App.vue`: guarded by `isCapturing`; invokes
`trigger_capture`, on success refreshes via `loadTodayRecords`
(which invokes `get_today_records`), on failure sets `captureError`;
`finally` resets `isCapturing`. `trigResult` is the outcome of the
`trigger_capture` invoke, `recResult` of the `get_today_records` one. -/
def triggerCapture (st : AppState) (trigResult : Except String Unit)
    (recResult : Except String (List Record)) : AppState × List Cmd :=
  if st.isCapturing then (st, [])
  else
    let st1 := { st with isCapturing := true, captureError := "" }
    match trigResult with
    | .ok _ =>
        let st2 := loadTodayRecords st1 recResult
        ({ st2 with isCapturing := false },
         [Cmd.trigger_capture, Cmd.get_today_records])
    | .error e =>
        ({ st1 with captureError := "分析失败: " ++ e, isCapturing := false },
         [Cmd.trigger_capture])

/-- `takeScreenshot` in `App.vue`: guarded by `isCapturing`; invokes only
`take_screenshot`; on success shows the screenshot modal with an ad-hoc
record (`content: null`), on failure sets `captureError`; `finally`
resets `isCapturing`. `nowIso` is `new Date().toISOString()`. -/
def takeScreenshot (st : AppState) (result : Except String String)
    (nowIso : String) : AppState × List Cmd :=
  if st.isCapturing then (st, [])
  else
    let st1 := { st with isCapturing := true, captureError := "" }
    match result with
    | .ok path =>
        ({ st1 with
            selectedScreenshot := some
              { id := 0, timestamp := nowIso, source_type := "auto"
                content := none, screenshot_path := some path }
            showScreenshot := true
            isCapturing := false },
         [Cmd.take_screenshot])
    | .error e =>
        ({ st1 with captureError := "截图失败: " ++ e, isCapturing := false },
         [Cmd.take_screenshot])

/-- `generateSummary` in `App.vue`: guarded by `isGenerating`; invokes
`generate_daily_summary`; on success stores the returned path in
`summaryPath`, on failure stores the stringified error in `summaryError`;
`finally` resets `isGenerating`. -/
def generateSummary (st : AppState) (result : Except String String) :
    AppState × List Cmd :=
  if st.isGenerating then (st, [])
  else
    let st1 := { st with isGenerating := true, summaryError := "" }
    match result with
    | .ok path =>
        ({ st1 with summaryPath := path, isGenerating := false },
         [Cmd.generate_daily_summary])
    | .error e =>
        ({ st1 with summaryError := e, isGenerating := false },
         [Cmd.generate_daily_summary])

/-! ## SettingsModal.vue -/

/-- The `settings` ref of `SettingsModal.vue`. Numeric fields are `Int`:
the inputs use `v-model.number` and their `min`/`max` attributes do not
constrain what can be typed. -/
structure SettingsForm where
  api_base_url : String
  api_key : String
  model_name : String
  screenshot_interval : Int
  summary_time : String
  obsidian_path : String
  summary_model_name : String
  analysis_prompt : String
  summary_prompt : String
  change_threshold : Int
  max_silent_minutes : Int
deriving Repr, DecidableEq

/-- The initial value of the `settings` ref in `SettingsModal.vue`. -/
def defaultSettingsForm : SettingsForm :=
  { api_base_url := ""
    api_key := ""
    model_name := "gpt-4o"
    screenshot_interval := 5
    summary_time := "18:00"
    obsidian_path := ""
    summary_model_name := ""
    analysis_prompt := ""
    summary_prompt := ""
    change_threshold := 3
    max_silent_minutes := 30 }

/-- The object `saveSettings` passes as the `settings` argument of the
`save_settings` command: `invoke('save_settings', { settings:
settings.value })` — the form state, verbatim, with no validation or
clamping. -/
def saveSettingsPayload (st : SettingsForm) : SettingsForm := st

/-- The ranges the specification declares for the three numeric settings:
`screenshot_interval` 1–60, `change_threshold` 1–20,
`max_silent_minutes` 5–120. -/
def settingsInRange (s : SettingsForm) : Prop :=
  (1 ≤ s.screenshot_interval ∧ s.screenshot_interval ≤ 60) ∧
  (1 ≤ s.change_threshold ∧ s.change_threshold ≤ 20) ∧
  (5 ≤ s.max_silent_minutes ∧ s.max_silent_minutes ≤ 120)

instance (s : SettingsForm) : Decidable (settingsInRange s) := by
  unfold settingsInRange; infer_instance

/-! ## Record-content parsing in the screenshot views

`JSON.parse` is a host-runtime primitive; it is abstracted as a
function `jp : String → Option ParsedContext`, where `none` covers the
`catch` branch (the parse threw, or the parsed value had no usable
object shape) and `some p` the successful structured parse. -/

/-- The structured auto-context schema
`{current_focus, active_software, context_keywords: [string]}`; each
field is optional because JavaScript property access yields `undefined`
for absent keys. -/
structure ParsedContext where
  current_focus : Option String
  active_software : Option String
  context_keywords : Option (List String)
deriving Repr, DecidableEq

/-- String interpolation of a possibly-`undefined` JavaScript value:
`${undefined}` renders as `"undefined"`. -/
def showOpt : Option String → String
  | some s => s
  | none => "undefined"

/-- `Array.prototype.join(', ')`. -/
def joinComma : List String → String
  | [] => ""
  | [x] => x
  | x :: y :: xs => x ++ ", " ++ joinComma (y :: xs)

/-- `parsed.context_keywords?.join(', ') || '无'`: `undefined` and the
empty string are falsy. -/
def keywordsText : Option (List String) → String
  | none => "无"
  | some ks => if joinComma ks = "" then "无" else joinComma ks

/-- `a || b` on an optional string: `undefined` and `""` fall through. -/
def truthyOr (o : Option String) (d : String) : String :=
  match o with
  | some s => if s = "" then d else s
  | none => d

/-- `s.substring(0, n)` (characters from the front). -/
def jsSubstring0 (s : String) (n : Nat) : String :=
  ⟨s.data.take n⟩

namespace ScreenshotModal

/-- `parseContent` in `ScreenshotModal.vue`: try `JSON.parse`; on success
render the three structured fields, on failure return the raw content. -/
def parseContent (jp : String → Option ParsedContext) (content : String) :
    String :=
  match jp content with
  | some parsed =>
      "当前焦点: " ++ showOpt parsed.current_focus ++
      "\n使用软件: " ++ showOpt parsed.active_software ++
      "\n关键词: " ++ keywordsText parsed.context_keywords
  | none => content

end ScreenshotModal

namespace ScreenshotGallery

/-- `parseContent` in `ScreenshotGallery.vue`: try `JSON.parse`; on
success `parsed.current_focus || parsed.active_software || '未知'`, on
failure `content.substring(0, 30)`. -/
def parseContent (jp : String → Option ParsedContext) (content : String) :
    String :=
  match jp content with
  | some parsed =>
      truthyOr parsed.current_focus (truthyOr parsed.active_software "未知")
  | none => jsSubstring0 content 30

end ScreenshotGallery

/-! ## LogViewer component -/

namespace LogViewer

/-- `s.includes(sub)` — whether `sub` occurs contiguously in `s`,
checked on the character lists. -/
def leadsWith : List Char → List Char → Bool
  | [], _ => true
  | _ :: _, [] => false
  | c :: cs, d :: ds => c = d && leadsWith cs ds

/-- Substring search used by `jsIncludes`. -/
def hasSub (l sub : List Char) : Bool :=
  match l with
  | [] => sub.isEmpty
  | _ :: t => leadsWith sub l || hasSub t sub

/-- Embedding of JavaScript `line.includes(marker)`. -/
def jsIncludes (s sub : String) : Bool :=
  hasSub s.data sub.data

/-- The three level-filter keys of the log viewer. -/
inductive Level where
  | INFO
  | WARN
  | ERROR
deriving Repr, DecidableEq

/-- The `activelevels` ref — a set over the three fixed keys, as one
membership flag each. -/
structure ActiveLevels where
  info : Bool
  warn : Bool
  error : Bool
deriving Repr, DecidableEq

/-- `new Set(['INFO', 'WARN', 'ERROR'])` — the initial value. -/
def initialLevels : ActiveLevels :=
  { info := true, warn := true, error := true }

/-- `activelevels.size`. -/
def sizeAL (a : ActiveLevels) : Nat :=
  (if a.info then 1 else 0) + (if a.warn then 1 else 0) +
    (if a.error then 1 else 0)

/-- Membership of a key in the set. -/
def memAL (a : ActiveLevels) : Level → Bool
  | .INFO => a.info
  | .WARN => a.warn
  | .ERROR => a.error

/-- Flipping one key's membership (`s.has(key) ? s.delete(key) :
s.add(key)` on the copy). -/
def flipAL (a : ActiveLevels) : Level → ActiveLevels
  | .INFO => { a with info := !a.info }
  | .WARN => { a with warn := !a.warn }
  | .ERROR => { a with error := !a.error }

/-- `toggleLevel`: toggle the key on a copy, then assign it back only
when the copy is non-empty (`if (s.size > 0) activelevels.value = s`). -/
def toggleLevel (a : ActiveLevels) (key : Level) : ActiveLevels :=
  let s := flipAL a key
  if 0 < sizeAL s then s else a

/-- The recognized level-marker test: the line contains the level name
surrounded by a leading space and a trailing space or tab. -/
def levelMarkerIn (line lv : String) : Bool :=
  jsIncludes line (" " ++ lv ++ " ") || jsIncludes line (" " ++ lv ++ "\t")

/-- The predicate of the `filter` inside `filteredLines`: keep a line if
some active level's marker occurs in it, or if no recognized level
marker occurs at all (continuation lines). -/
def keepLine (a : ActiveLevels) (line : String) : Bool :=
  (a.info && levelMarkerIn line "INFO") ||
  (a.warn && levelMarkerIn line "WARN") ||
  (a.error && levelMarkerIn line "ERROR") ||
  !(levelMarkerIn line "INFO" || levelMarkerIn line "WARN" ||
    levelMarkerIn line "ERROR")

/-- The `filteredLines` computed value: the raw lines unchanged when all
three levels are active (`activelevels.size === 3`), the filtered lines
otherwise. -/
def filteredLines (a : ActiveLevels) (raw : List String) : List String :=
  if sizeAL a = 3 then raw else raw.filter (keepLine a)

end LogViewer

/-! ## Backend models

The Rust backend (`src-tauri`) is not among the frontend sources; where
a claim depends on it, the component is modelled from the
specification, as stated on each definition. -/

/-- A captured screen image, as a list of grayscale pixel values. -/
def Image : Type := List Nat

/-- The capture-side error taxonomy of the spec (§7): acquisition
failure, vision-call failure, and the concurrency-guard rejection. -/
inductive CapError where
  | CaptureInProgress
  | AnalysisError
  | CaptureFailed
deriving Repr, DecidableEq

/-- The in-memory `CaptureState` of the spec (§3): an in-flight flag
preventing overlapping captures, the baseline frame, and the timestamp
of the last stored record (minutes). -/
structure CaptureState where
  inFlight : Bool
  baseline : Option Image
  lastStore : Nat

/-- Modelled from the spec: the `trigger()` operation of the
CaptureScheduler (§4.2), whose Rust implementation (`src-tauri`) is not
among the frontend sources. It fails with `CaptureInProgress` when the
in-flight flag is held, and otherwise performs one
capture+analyze+store cycle unconditionally — the ChangeDetector
threshold in `settings` is never consulted. `analysis` is the outcome
of the one VisionAnalyzer call; `img` the captured image, `now` the
current time, `newId` the store's next row id. Returns the new state,
the operation's result, and the list of records inserted. -/
def trigger (settings : SettingsForm) (st : CaptureState) (now : Nat)
    (img : Image) (analysis : Option String) (newId : Nat) :
    CaptureState × Except CapError Record × List Record :=
  if st.inFlight then (st, .error .CaptureInProgress, [])
  else
    match analysis with
    | some content =>
        let r : Record :=
          { id := newId, timestamp := toString now, source_type := "auto"
            content := some content, screenshot_path := none }
        ({ st with baseline := some img, lastStore := now }, .ok r, [r])
    | none => (st, .error .AnalysisError, [])

/-- The synthesis-side error taxonomy of the spec (§4.4, §7). -/
inductive SummaryError where
  | NoRecordsError
  | SynthesisFailedError
  | ConfigError
deriving Repr, DecidableEq

/-- A file written by the synthesis engine. -/
structure FileWrite where
  path : String
  content : String
deriving Repr, DecidableEq

/-- Modelled from the spec: the `generate_summary()` pipeline of the
SynthesisEngine (§4.4), whose Rust implementation (`src-tauri`) is not
among the frontend sources. `todays` are today's records read from the
store; an empty set fails with `NoRecordsError` before anything else
happens; `synth` is the outcome of the one TextSynthesizer call;
`vaultPath` the configured vault path when set and existing; `date` the
current date. Returns the result and the list of files written. -/
def generate_summary (todays : List Record) (vaultPath : Option String)
    (synth : Option String) (date : String) :
    Except SummaryError String × List FileWrite :=
  if todays.isEmpty then (.error .NoRecordsError, [])
  else
    match synth with
    | none => (.error .SynthesisFailedError, [])
    | some text =>
        match vaultPath with
        | none => (.error .ConfigError, [])
        | some vp =>
            let out := vp ++ "/" ++ date ++ ".md"
            (.ok out, [{ path := out, content := text }])

/-- The fixed canonical resolution (pixel count) both images are
normalized to before comparison. -/
def canonN : Nat := 256

/-- The fixed noise epsilon below which a per-pixel difference does not
count as a change. -/
def noiseEps : Nat := 5

/-- Absolute difference of two pixel values. -/
def pixDiff (a b : Nat) : Nat :=
  max a b - min a b

/-- Modelled from the spec: the normalization of an image to the fixed
canonical resolution (§4.1) — nearest-sample resize to `canonN`
pixels. -/
def normalize (img : Image) : Image :=
  (List.range canonN).map (fun i => img.getD (i * img.length / canonN) 0)

/-- Modelled from the spec: `diff_percentage` of the ChangeDetector
(§4.1), whose Rust implementation (`src-tauri`) is not among the
frontend sources. Both inputs are normalized to the canonical
resolution; a pixel counts as changed only when its absolute difference
exceeds the noise epsilon; the result is the percentage of changed
pixels. -/
def diff_percentage (oldImg newImg : Image) : Nat :=
  let a := normalize oldImg
  let b := normalize newImg
  ((a.zip b).filter (fun p => noiseEps < pixDiff p.1 p.2)).length * 100
    / canonN

/-- A concrete idle `App.vue` state, used to instantiate theorems. -/
def sampleApp : AppState :=
  { autoCaptureEnabled := false
    quickNotesCount := 0
    todayRecords := []
    isGenerating := false
    isCapturing := false
    summaryPath := ""
    summaryError := ""
    captureError := ""
    showScreenshot := false
    selectedScreenshot := none }

/-- A concrete record, used to instantiate theorems. -/
def sampleRecord : Record :=
  { id := 7, timestamp := "2025-01-01T09:00:00Z", source_type := "manual"
    content := some "note", screenshot_path := none }

/-! ## Helper lemmas -/

theorem dropWhile_head_false {α : Type} (p : α → Bool) :
    ∀ (l : List α) (c : α) (t : List α),
      l.dropWhile p = c :: t → p c = false := by
  intro l
  induction l with
  | nil => intro c t h; simp [List.dropWhile] at h
  | cons a l ih =>
      intro c t h
      cases hpa : p a
      · rw [List.dropWhile] at h
        rw [hpa] at h
        cases h
        exact hpa
      · rw [List.dropWhile] at h
        rw [hpa] at h
        exact ih c t h

theorem dropWhile_getLast?_eq {α : Type} (p : α → Bool) :
    ∀ (l : List α), l.dropWhile p ≠ [] →
      (l.dropWhile p).getLast? = l.getLast? := by
  intro l
  induction l with
  | nil => intro h; simp [List.dropWhile] at h
  | cons a l ih =>
      intro h
      cases hpa : p a
      · rw [List.dropWhile]
        rw [hpa]
      · rw [List.dropWhile] at h ⊢
        rw [hpa] at h ⊢
        have hl : l ≠ [] := by
          intro he
          rw [he] at h
          simp [List.dropWhile] at h
        cases l with
        | nil => exact absurd rfl hl
        | cons b l' =>
            rw [List.getLast?_cons_cons]
            exact ih h

theorem trimChars_head_not_ws (l : List Char) (c : Char)
    (h : (trimChars l).head? = some c) : jsWs c = false := by
  unfold trimChars at h
  rw [List.head?_reverse] at h
  have hr : ((l.dropWhile jsWs).reverse.dropWhile jsWs) ≠ [] := by
    intro he
    rw [he] at h
    simp at h
  rw [dropWhile_getLast?_eq jsWs _ hr] at h
  rw [List.getLast?_reverse] at h
  cases ht : (l.dropWhile jsWs) with
  | nil => rw [ht] at h; simp at h
  | cons d t =>
      rw [ht] at h
      simp at h
      rw [h] at ht
      exact dropWhile_head_false jsWs l c t ht

theorem trimChars_getLast_not_ws (l : List Char) (c : Char)
    (h : (trimChars l).getLast? = some c) : jsWs c = false := by
  unfold trimChars at h
  rw [List.getLast?_reverse] at h
  cases hr : ((l.dropWhile jsWs).reverse.dropWhile jsWs) with
  | nil => rw [hr] at h; simp at h
  | cons d t =>
      rw [hr] at h
      simp at h
      rw [h] at hr
      exact dropWhile_head_false jsWs _ c t hr

theorem trimChars_eq_nil_of_all_ws (l : List Char)
    (h : ∀ c ∈ l, jsWs c = true) : trimChars l = [] := by
  unfold trimChars
  have h1 : l.dropWhile jsWs = [] := List.dropWhile_eq_nil_iff.mpr h
  rw [h1]
  simp [List.dropWhile]

/-! ## Claim theorems -/

/-- C9: for every input string `s` in the quick-note modal, the save
operation emits one `save` event carrying the trimmed text when the
trimmed text is non-empty, emits nothing when `s` is empty or
whitespace-only, and every emitted note has no leading or trailing
whitespace character. -/
theorem quick_note_save_trimmed (s : String) :
    ((∀ c ∈ s.data, jsWs c = true) → quickNoteSave s = []) ∧
    (jsTrim s ≠ "" → quickNoteSave s = [jsTrim s]) ∧
    (∀ note ∈ quickNoteSave s,
      note = jsTrim s ∧
      (∀ c, note.data.head? = some c → jsWs c = false) ∧
      (∀ c, note.data.getLast? = some c → jsWs c = false)) := by
  refine ⟨?_, ?_, ?_⟩
  · intro hws
    have : jsTrim s = "" := by
      show (⟨trimChars s.data⟩ : String) = ⟨[]⟩
      rw [trimChars_eq_nil_of_all_ws s.data hws]
    simp [quickNoteSave, this]
  · intro hne
    simp [quickNoteSave, hne]
  · intro note hmem
    unfold quickNoteSave at hmem
    by_cases he : jsTrim s = ""
    · simp [he] at hmem
    · simp [he] at hmem
      subst hmem
      refine ⟨rfl, ?_, ?_⟩
      · intro c hc
        exact trimChars_head_not_ws s.data c hc
      · intro c hc
        exact trimChars_getLast_not_ws s.data c hc

/-- C9 witness: at whitespace-only inputs — ASCII spaces and a
full-width U+3000 ideographic space — nothing is emitted; at a
space-padded input, the trimmed note is emitted. -/
theorem quick_note_save_trimmed_witness :
    quickNoteSave "  " = [] ∧ quickNoteSave "　" = [] ∧
    quickNoteSave " hi " = ["hi"] := by
  refine ⟨?_, ?_, ?_⟩
  · exact (quick_note_save_trimmed "  ").1 (by decide)
  · exact (quick_note_save_trimmed "　").1 (by decide)
  · have h := (quick_note_save_trimmed " hi ").2.1 (by decide)
    rw [h]
    decide

theorem zip_self_filter_changed_nil :
    ∀ l : List Nat,
      (l.zip l).filter (fun p => noiseEps < pixDiff p.1 p.2) = [] := by
  intro l
  induction l with
  | nil => rfl
  | cons a t ih =>
      have hd : decide (noiseEps < pixDiff a a) = false := by
        simp [pixDiff]
      show List.filter _ ((a, a) :: t.zip t) = []
      rw [List.filter_cons, hd]
      simpa using ih

theorem normalize_length (img : Image) : (normalize img).length = canonN := by
  simp [normalize]

/-- C5: `diff_percentage` is a pure function (hence deterministic),
vanishes on identical inputs, and always returns a value in [0, 100]
(the lower bound holds because the result is a natural number). -/
theorem diff_percentage_identity_and_range (a b : Image) :
    diff_percentage a a = 0 ∧ diff_percentage a b ≤ 100 := by
  constructor
  · show (((normalize a).zip (normalize a)).filter
        (fun p => noiseEps < pixDiff p.1 p.2)).length * 100 / canonN = 0
    rw [zip_self_filter_changed_nil (normalize a)]
    simp
  · show (((normalize a).zip (normalize b)).filter
        (fun p => noiseEps < pixDiff p.1 p.2)).length * 100 / canonN ≤ 100
    have hlen :
        (((normalize a).zip (normalize b)).filter
            (fun p => noiseEps < pixDiff p.1 p.2)).length ≤ canonN := by
      calc (((normalize a).zip (normalize b)).filter
              (fun p => noiseEps < pixDiff p.1 p.2)).length
          ≤ ((normalize a).zip (normalize b)).length :=
            List.length_filter_le _ _
        _ ≤ (normalize a).length := by
            rw [List.length_zip]
            exact Nat.min_le_left _ _
        _ = canonN := normalize_length a
    calc (((normalize a).zip (normalize b)).filter
            (fun p => noiseEps < pixDiff p.1 p.2)).length * 100 / canonN
        ≤ canonN * 100 / canonN := by
          exact Nat.div_le_div_right (Nat.mul_le_mul_right 100 hlen)
      _ = 100 := by
          rw [Nat.mul_div_cancel_left 100 (by decide : 0 < canonN)]

/-- C1: a manual `trigger()` issued while another capture holds the
in-flight flag fails with `CaptureInProgress`, inserts no record and
leaves the capture state unchanged; and in the UI, `triggerCapture`
invoked while `isCapturing` is true performs no backend call and leaves
the whole component state — `todayRecords` included — unchanged. -/
theorem trigger_capture_in_progress_rejected :
    (∀ (settings : SettingsForm) (st : CaptureState) (now : Nat)
        (img : Image) (analysis : Option String) (newId : Nat),
        st.inFlight = true →
        trigger settings st now img analysis newId =
          (st, Except.error CapError.CaptureInProgress, [])) ∧
    (∀ (ui : AppState) (tr : Except String Unit)
        (rr : Except String (List Record)),
        ui.isCapturing = true → triggerCapture ui tr rr = (ui, [])) := by
  constructor
  · intro settings st now img analysis newId h
    simp [trigger, h]
  · intro ui tr rr h
    simp [triggerCapture, h]

/-- C1 witness: a busy capture state rejects a trigger with
`CaptureInProgress` and no insert; a capturing UI state issues no
backend call and keeps its records. -/
theorem trigger_capture_in_progress_rejected_witness :
    trigger defaultSettingsForm
        { inFlight := true, baseline := none, lastStore := 0 } 3 [9]
        (some "ctx") 1 =
      ({ inFlight := true, baseline := none, lastStore := 0 },
        Except.error CapError.CaptureInProgress, []) ∧
    triggerCapture { sampleApp with isCapturing := true }
        (Except.ok ()) (Except.ok [sampleRecord]) =
      ({ sampleApp with isCapturing := true }, []) := by
  constructor
  · exact trigger_capture_in_progress_rejected.1 defaultSettingsForm
      { inFlight := true, baseline := none, lastStore := 0 } 3 [9]
      (some "ctx") 1 rfl
  · exact trigger_capture_in_progress_rejected.2
      { sampleApp with isCapturing := true }
      (Except.ok ()) (Except.ok [sampleRecord]) rfl

/-- C2: `trigger()` never consults the change threshold — its result is
identical for any two values of `change_threshold` — and whenever the
in-flight flag is free and the one analysis call succeeds, it stores
exactly one record and returns it (for every settings value, hence also
for `change_threshold = 100`); and in the UI, a successful
`triggerCapture` invokes `trigger_capture` and then refreshes
`todayRecords` through `get_today_records`. -/
theorem trigger_bypasses_threshold :
    (∀ (settings : SettingsForm) (t : Int) (st : CaptureState) (now : Nat)
        (img : Image) (analysis : Option String) (newId : Nat),
        trigger { settings with change_threshold := t } st now img analysis
            newId =
          trigger settings st now img analysis newId) ∧
    (∀ (settings : SettingsForm) (st : CaptureState) (now : Nat)
        (img : Image) (content : String) (newId : Nat),
        st.inFlight = false →
        trigger settings st now img (some content) newId =
          ({ st with baseline := some img, lastStore := now },
            Except.ok
              { id := newId, timestamp := toString now
                source_type := "auto", content := some content
                screenshot_path := none },
            [{ id := newId, timestamp := toString now
               source_type := "auto", content := some content
               screenshot_path := none }])) ∧
    (∀ (ui : AppState) (rr : Except String (List Record))
        (records : List Record),
        ui.isCapturing = false →
        (triggerCapture ui (Except.ok ()) rr).2 =
            [Cmd.trigger_capture, Cmd.get_today_records] ∧
          (rr = Except.ok records →
            (triggerCapture ui (Except.ok ()) rr).1.todayRecords =
              records)) := by
  refine ⟨?_, ?_, ?_⟩
  · intro settings t st now img analysis newId
    rfl
  · intro settings st now img content newId h
    simp [trigger, h]
  · intro ui rr records h
    constructor
    · simp [triggerCapture, h]
    · intro hr
      subst hr
      simp [triggerCapture, h, loadTodayRecords]

/-- C2 witness: with `change_threshold = 100` and a free in-flight flag,
a trigger with a successful analysis stores exactly one record, and the
UI refresh happens through `get_today_records`. -/
theorem trigger_bypasses_threshold_witness :
    trigger { defaultSettingsForm with change_threshold := 100 }
        { inFlight := false, baseline := none, lastStore := 0 } 8 [5]
        (some "ctx") 2 =
      ({ inFlight := false, baseline := some [5], lastStore := 8 },
        Except.ok
          { id := 2, timestamp := "8", source_type := "auto"
            content := some "ctx", screenshot_path := none },
        [{ id := 2, timestamp := "8", source_type := "auto"
           content := some "ctx", screenshot_path := none }]) ∧
    (triggerCapture sampleApp (Except.ok ())
        (Except.ok [sampleRecord])).2 =
      [Cmd.trigger_capture, Cmd.get_today_records] ∧
    (triggerCapture sampleApp (Except.ok ())
        (Except.ok [sampleRecord])).1.todayRecords = [sampleRecord] := by
  refine ⟨?_, ?_, ?_⟩
  · have h := trigger_bypasses_threshold.2.1
      { defaultSettingsForm with change_threshold := 100 }
      { inFlight := false, baseline := none, lastStore := 0 } 8 [5] "ctx" 2
      rfl
    exact h
  · exact (trigger_bypasses_threshold.2.2 sampleApp
      (Except.ok [sampleRecord]) [sampleRecord] rfl).1
  · exact (trigger_bypasses_threshold.2.2 sampleApp
      (Except.ok [sampleRecord]) [sampleRecord] rfl).2 rfl

/-- C3: `generate_summary()` on a day with zero records fails with
`NoRecordsError` and writes no file; and in the UI, when the
`generate_daily_summary` invoke rejects, `summaryError` is set to the
stringified error while `summaryPath` keeps its previous value. -/
theorem generate_summary_empty_no_file :
    (∀ (vaultPath : Option String) (synth : Option String) (date : String),
        generate_summary [] vaultPath synth date =
          (Except.error SummaryError.NoRecordsError, [])) ∧
    (∀ (st : AppState) (e : String), st.isGenerating = false →
        (generateSummary st (Except.error e)).1.summaryError = e ∧
        (generateSummary st (Except.error e)).1.summaryPath =
          st.summaryPath ∧
        (generateSummary st (Except.error e)).2 =
          [Cmd.generate_daily_summary]) := by
  constructor
  · intro vaultPath synth date
    rfl
  · intro st e h
    refine ⟨?_, ?_, ?_⟩ <;> simp [generateSummary, h]

/-- C3 witness: the empty day yields `NoRecordsError` with no write, and
a rejected UI call records the error while keeping the shown path. -/
theorem generate_summary_empty_no_file_witness :
    generate_summary [] (some "/vault") (some "text") "2025-01-01" =
      (Except.error SummaryError.NoRecordsError, []) ∧
    (generateSummary { sampleApp with summaryPath := "/vault/old.md" }
        (Except.error "no records")).1.summaryError = "no records" ∧
    (generateSummary { sampleApp with summaryPath := "/vault/old.md" }
        (Except.error "no records")).1.summaryPath = "/vault/old.md" := by
  refine ⟨?_, ?_, ?_⟩
  · exact generate_summary_empty_no_file.1 (some "/vault") (some "text")
      "2025-01-01"
  · exact (generate_summary_empty_no_file.2
      { sampleApp with summaryPath := "/vault/old.md" } "no records" rfl).1
  · exact (generate_summary_empty_no_file.2
      { sampleApp with summaryPath := "/vault/old.md" } "no records"
      rfl).2.1

/-- C4: whenever parsing a record's content into the structured schema
fails, the modal view returns the raw content unchanged and the gallery
preview returns its first 30 characters; whenever parsing succeeds, both
views render the structured fields. -/
theorem parse_content_raw_fallback
    (jp : String → Option ParsedContext) (content : String) :
    (jp content = none →
      ScreenshotModal.parseContent jp content = content ∧
      ScreenshotGallery.parseContent jp content =
        jsSubstring0 content 30) ∧
    (∀ p, jp content = some p →
      ScreenshotModal.parseContent jp content =
        "当前焦点: " ++ showOpt p.current_focus ++
        "\n使用软件: " ++ showOpt p.active_software ++
        "\n关键词: " ++ keywordsText p.context_keywords ∧
      ScreenshotGallery.parseContent jp content =
        truthyOr p.current_focus
          (truthyOr p.active_software "未知")) := by
  constructor
  · intro h
    constructor
    · simp [ScreenshotModal.parseContent, h]
    · simp [ScreenshotGallery.parseContent, h]
  · intro p h
    constructor
    · simp [ScreenshotModal.parseContent, h]
    · simp [ScreenshotGallery.parseContent, h]

/-- C4 witness: under a parse that throws, a 36-character content string
is shown unchanged in the modal and truncated to its first 30 characters
in the gallery. -/
theorem parse_content_raw_fallback_witness :
    ScreenshotModal.parseContent (fun _ => none)
        "plain text note that is not JSON car" =
      "plain text note that is not JSON car" ∧
    ScreenshotGallery.parseContent (fun _ => none)
        "plain text note that is not JSON car" =
      "plain text note that is not JS" := by
  have h := (parse_content_raw_fallback (fun _ => none)
    "plain text note that is not JSON car").1 rfl
  refine ⟨h.1, ?_⟩
  rw [h.2]
  decide

/-- C6 counterexample: the settings form can hold
`screenshot_interval = 0` (the inputs' `min`/`max` attributes do not
constrain typed values and `saveSettings` validates nothing), and the
object passed to `save_settings` is that form state verbatim, violating
the declared 1–60 range. -/
theorem save_settings_bounds_cex :
    ¬ settingsInRange
        (saveSettingsPayload
          { defaultSettingsForm with screenshot_interval := 0 }) := by
  intro h
  exact absurd h.1.1 (by decide)

/-- C6 amended: `saveSettings` passes the settings form state to the
`save_settings` command verbatim, without validation or clamping; the
form's initial values (5, 3, 30) satisfy the declared ranges, so the
payload satisfies the ranges exactly when the form state does. -/
theorem save_settings_payload_verbatim :
    (∀ st : SettingsForm, saveSettingsPayload st = st) ∧
    settingsInRange defaultSettingsForm ∧
    (∀ st : SettingsForm,
      settingsInRange st → settingsInRange (saveSettingsPayload st)) := by
  refine ⟨fun _ => rfl, by decide, fun st h => h⟩

/-- C6 amended witness: the default form state is within the ranges and
is passed through unchanged. -/
theorem save_settings_payload_verbatim_witness :
    saveSettingsPayload defaultSettingsForm = defaultSettingsForm ∧
    settingsInRange (saveSettingsPayload defaultSettingsForm) := by
  exact ⟨save_settings_payload_verbatim.1 defaultSettingsForm,
    save_settings_payload_verbatim.2.2 defaultSettingsForm (by decide)⟩

/-- C7: `takeScreenshot` leaves `todayRecords` unchanged whether the
call succeeds or fails, and its backend calls are at most the single
`take_screenshot` invoke — never `trigger_capture`, `add_quick_note` or
`get_today_records`. -/
theorem take_screenshot_capture_only (st : AppState)
    (result : Except String String) (nowIso : String) :
    (takeScreenshot st result nowIso).1.todayRecords = st.todayRecords ∧
    ((takeScreenshot st result nowIso).2 = [] ∨
      (takeScreenshot st result nowIso).2 = [Cmd.take_screenshot]) ∧
    Cmd.trigger_capture ∉ (takeScreenshot st result nowIso).2 ∧
    Cmd.add_quick_note ∉ (takeScreenshot st result nowIso).2 ∧
    Cmd.get_today_records ∉ (takeScreenshot st result nowIso).2 := by
  unfold takeScreenshot
  by_cases h : st.isCapturing
  · simp [h]
  · cases result with
    | ok path => simp [h]
    | error e => simp [h]

/-- C8: when `triggerCapture` proceeds (the `isCapturing` guard is
down), `isCapturing` is false again on return whether the backend call
resolves or rejects; on rejection `get_today_records` is not invoked and
`todayRecords` is unchanged; on success `get_today_records` is invoked
exactly once. -/
theorem trigger_capture_resets_and_refreshes (st : AppState)
    (tr : Except String Unit) (rr : Except String (List Record))
    (h : st.isCapturing = false) :
    (triggerCapture st tr rr).1.isCapturing = false ∧
    (∀ e, tr = Except.error e →
      (triggerCapture st tr rr).1.todayRecords = st.todayRecords ∧
      Cmd.get_today_records ∉ (triggerCapture st tr rr).2) ∧
    (tr = Except.ok () →
      ((triggerCapture st tr rr).2.count Cmd.get_today_records = 1)) := by
  refine ⟨?_, ?_, ?_⟩
  · cases tr with
    | ok u => simp [triggerCapture, h, loadTodayRecords]
    | error e => simp [triggerCapture, h]
  · intro e he
    subst he
    constructor
    · simp [triggerCapture, h]
    · simp [triggerCapture, h]
  · intro ht
    subst ht
    simp [triggerCapture, h, List.count_cons]

/-- C8 witness: from the idle state, a rejected trigger leaves the
records alone and re-arms the button; a resolved one refreshes once. -/
theorem trigger_capture_resets_and_refreshes_witness :
    (triggerCapture sampleApp (Except.error "screenshot failed")
        (Except.ok [])).1.isCapturing = false ∧
    (triggerCapture sampleApp (Except.error "screenshot failed")
        (Except.ok [])).1.todayRecords = sampleApp.todayRecords ∧
    ((triggerCapture sampleApp (Except.ok ())
        (Except.ok [])).2.count Cmd.get_today_records = 1) := by
  refine ⟨?_, ?_, ?_⟩
  · exact (trigger_capture_resets_and_refreshes sampleApp
      (Except.error "screenshot failed") (Except.ok []) rfl).1
  · exact ((trigger_capture_resets_and_refreshes sampleApp
      (Except.error "screenshot failed") (Except.ok []) rfl).2.1
      "screenshot failed" rfl).1
  · exact (trigger_capture_resets_and_refreshes sampleApp
      (Except.ok ()) (Except.ok []) rfl).2.2 rfl

theorem toggleLevel_pos (a : LogViewer.ActiveLevels) (k : LogViewer.Level)
    (h : 0 < LogViewer.sizeAL a) :
    0 < LogViewer.sizeAL (LogViewer.toggleLevel a k) := by
  unfold LogViewer.toggleLevel
  by_cases hp : 0 < LogViewer.sizeAL (LogViewer.flipAL a k)
  · simp [hp]
  · simp [hp, h]

theorem foldl_toggleLevel_pos (toggles : List LogViewer.Level) :
    ∀ a : LogViewer.ActiveLevels, 0 < LogViewer.sizeAL a →
      0 < LogViewer.sizeAL (toggles.foldl LogViewer.toggleLevel a) := by
  induction toggles with
  | nil => intro a h; exact h
  | cons k ks ih =>
      intro a h
      exact ih (LogViewer.toggleLevel a k) (toggleLevel_pos a k h)

/-- C10: after any sequence of `toggleLevel` calls starting from the
initial set of all three levels, the active set is never empty;
`filteredLines` is always an order-preserving subsequence of the raw
lines, and it equals the raw lines when all three levels are active. -/
theorem log_viewer_filter_invariants (toggles : List LogViewer.Level)
    (raw : List String) :
    0 < LogViewer.sizeAL
        (toggles.foldl LogViewer.toggleLevel LogViewer.initialLevels) ∧
    (LogViewer.filteredLines
        (toggles.foldl LogViewer.toggleLevel LogViewer.initialLevels)
        raw).Sublist raw ∧
    (∀ a : LogViewer.ActiveLevels,
      a.info = true → a.warn = true → a.error = true →
      LogViewer.filteredLines a raw = raw) := by
  refine ⟨?_, ?_, ?_⟩
  · exact foldl_toggleLevel_pos toggles LogViewer.initialLevels (by decide)
  · unfold LogViewer.filteredLines
    by_cases h :
        LogViewer.sizeAL
          (toggles.foldl LogViewer.toggleLevel LogViewer.initialLevels) = 3
    · simp [h]
    · simp [h]
  · intro a hi hw he
    have hs : LogViewer.sizeAL a = 3 := by
      simp [LogViewer.sizeAL, hi, hw, he]
    simp [LogViewer.filteredLines, hs]

/-- C10 witness: with no toggles all three levels are active, the
invariant holds and the filtered lines are the raw lines themselves. -/
theorem log_viewer_filter_invariants_witness :
    0 < LogViewer.sizeAL
        (([] : List LogViewer.Level).foldl LogViewer.toggleLevel
          LogViewer.initialLevels) ∧
    LogViewer.filteredLines LogViewer.initialLevels ["a INFO b", "x"] =
      ["a INFO b", "x"] := by
  exact ⟨(log_viewer_filter_invariants [] ["a INFO b", "x"]).1,
    (log_viewer_filter_invariants [] ["a INFO b", "x"]).2.2
      LogViewer.initialLevels rfl rfl rfl⟩

end DailyLogger
